import Mathlib

/-!
Verification of the virtual sensor device abstraction of embvm/c-interfaces:
callback registries, the synchronous-with-notification sensor facade, the
asynchronous request facade, and the barometric-specific operations.

The repository ships interface declarations (C structs of function pointers)
together with documented behavioral contracts; there is no implementation
under src/.  Operations are therefore modelled from the specification, and
each such definition carries a doc comment beginning with "Modelled from the
spec:".  The numeric types of the declarations (uint32_t pressure, int32_t
destination, and so on) are taken from the source headers directly.
-/

namespace CInterfaces

/-! ## Callback registry (spec section 4.1) -/

/-- Modelled from the spec: the missing implementation of a callback
registry (src has only the registration function-pointer declarations,
e.g. BarometricSensor_withCb.registerNewSampleCb).  The registry is an
ordered list of distinct callback handles; register adds the handle at
the end if it is absent and is a no-op when the handle is already
present (idempotent). -/
def CallbackRegistry.register {κ : Type} [DecidableEq κ] (list : List κ) (cb : κ) : List κ :=
  if cb ∈ list then list else list ++ [cb]

/-- Modelled from the spec: the missing implementation of unregister
(declared as unregisterNewSampleCb / unregisterErrorCb in the headers).
Removes the handle if present; a no-op if absent; never fails. -/
def CallbackRegistry.unregister {κ : Type} [DecidableEq κ] (list : List κ) (cb : κ) : List κ :=
  list.erase cb

/-- Modelled from the spec: dispatchAll invokes every currently registered
callback with the payload.  The model returns the invocation trace: one
(handle, payload) entry per invocation, in registry order. -/
def CallbackRegistry.dispatchAll {κ α : Type} (list : List κ) (payload : α) : List (κ × α) :=
  list.map (fun cb => (cb, payload))

/-- Outcome of a registration attempt against a fixed-capacity backing
store: either the updated registry, or a fatal assert/abort. -/
inductive RegisterOutcome (κ : Type) where
  | ok (list : List κ)
  | fatalAssert
deriving DecidableEq

/-- Modelled from the spec: registration against a fixed-capacity backing
store.  The headers state that implementers should trigger an assert() or
other crash if a callback cannot be added to a list due to exceeding fixed
size constraints; no recoverable error is returned to the caller. -/
def CallbackRegistry.registerBounded {κ : Type} [DecidableEq κ] (capacity : Nat)
    (list : List κ) (cb : κ) : RegisterOutcome κ :=
  if cb ∈ list then RegisterOutcome.ok list
  else if list.length < capacity then RegisterOutcome.ok (list ++ [cb])
  else RegisterOutcome.fatalAssert

/-- A register or unregister request, used to reason about arbitrary
finite call sequences against a registry. -/
inductive RegistryOp (κ : Type) where
  | register (cb : κ)
  | unregister (cb : κ)

/-- Apply one register/unregister call to the registry list. -/
def RegistryOp.apply {κ : Type} [DecidableEq κ] (list : List κ) : RegistryOp κ → List κ
  | RegistryOp.register cb => CallbackRegistry.register list cb
  | RegistryOp.unregister cb => CallbackRegistry.unregister list cb

/-- Run a finite sequence of register/unregister calls against the
initially empty registry. -/
def runRegistryOps {κ : Type} [DecidableEq κ] (ops : List (RegistryOp κ)) : List κ :=
  ops.foldl RegistryOp.apply []

/-- The mathematical-set semantics of one call: register inserts the
handle, unregister erases it. -/
def RegistryOp.applySet {κ : Type} [DecidableEq κ] (s : Finset κ) : RegistryOp κ → Finset κ
  | RegistryOp.register cb => insert cb s
  | RegistryOp.unregister cb => s.erase cb

/-- The mathematical set obtained by folding a call sequence over the
empty set. -/
def specSetOfOps {κ : Type} [DecidableEq κ] (ops : List (RegistryOp κ)) : Finset κ :=
  ops.foldl RegistryOp.applySet ∅

/-! ## Sensor facade, synchronous-with-notification mode (spec section 4.2) -/

/-- State of a synchronous-with-notification sensor facade: one New-Sample
registry and one Error registry.  κ is the New-Sample handle type, κe the
Error handle type. -/
structure CbFacadeState (κ κe : Type) where
  newSampleCbs : List κ
  errorCbs : List κe
deriving DecidableEq

/-- Observable outcome of one sampling call: the boolean validity result,
the final contents of the caller destination (none when the caller passed
a null pointer), and the two dispatch traces. -/
structure SampleOutcome (α κ κe : Type) where
  ret : Bool
  destAfter : Option α
  newSampleCalls : List (κ × α)
  errorCalls : List κe
deriving DecidableEq

/-- Modelled from the spec: the missing implementation of the sampling
operation of the synchronous-with-notification facade (declared as
readPressure / readAltitude / readHumidity / readTemperature of the
_withCb interfaces).  reading is the underlying transducer result (some
value when valid, none when invalid); destBefore is the contents behind
the caller pointer, or none for a null pointer.  If the reading is valid
the destination (when supplied) receives the value, the New-Sample
registry is dispatched with the value, and the call returns true.  If the
reading is invalid the destination is left unchanged, the Error registry
is dispatched with no payload, and the call returns false. -/
def sampleWithCb {α κ κe : Type} (st : CbFacadeState κ κe) (reading : Option α)
    (destBefore : Option α) : SampleOutcome α κ κe :=
  match reading with
  | some v =>
    { ret := true
      destAfter := destBefore.map (fun _ => v)
      newSampleCalls := CallbackRegistry.dispatchAll st.newSampleCbs v
      errorCalls := [] }
  | none =>
    { ret := false
      destAfter := destBefore
      newSampleCalls := []
      errorCalls := st.errorCbs }

/-! ## Sensor facade, asynchronous mode (spec section 4.3) -/

/-- The bounded request queue backing the asynchronous facade: the number
of in-flight admitted requests and the fixed queue capacity. -/
structure AsyncRequestQueue where
  pending : Nat
  capacity : Nat
deriving DecidableEq

/-- Modelled from the spec: the missing implementation of
BarometricSensor_asyncWithCb.readSample (requestSample).  Attempts to
enqueue a sampling request; returns true if the queue admitted the
request and false if it was rejected (queue full).  The caller receives
no sample value from this call: the boolean and the updated queue state
are the entire synchronous outcome. -/
def AsyncRequestQueue.readSample (st : AsyncRequestQueue) : Bool × AsyncRequestQueue :=
  if st.pending < st.capacity then (true, { st with pending := st.pending + 1 })
  else (false, st)

/-- Modelled from the spec: completion of a previously admitted request by
the external producer, freeing one unit of queue capacity. -/
def AsyncRequestQueue.completeRequest (st : AsyncRequestQueue) : AsyncRequestQueue :=
  { st with pending := st.pending - 1 }

/-! ## Barometric specifics -/

/-- The standard Sea-Level-Pressure default, 1013.25 hPa, encoded in the
UQ22.10 fixed-point format of the headers (value times 2^10). -/
def standardSeaLevelPressure : Nat := 1037568

/-- Reinterpretation of a raw 32-bit value as a signed int32_t, as happens
when BarometricSensor_withCb.readPressure stores the UQ22.10 pressure
through its int32_t destination pointer. -/
def toInt32 (v : Nat) : Int :=
  if v < 2 ^ 31 then (v : Int) else (v : Int) - 2 ^ 32

/-- State of the barometric callback facade: the Sea-Level-Pressure
Reference plus the single shared New-Sample registry and the Error
registry. -/
structure BarometricState (κ κe : Type) where
  seaLevelPressure : Nat
  newSampleCbs : List κ
  errorCbs : List κe
deriving DecidableEq

/-- The barometric facade at construction: empty registries and the
standard Sea-Level-Pressure default. -/
def BarometricState.init (κ κe : Type) : BarometricState κ κe :=
  { seaLevelPressure := standardSeaLevelPressure
    newSampleCbs := []
    errorCbs := [] }

/-- Modelled from the spec: the missing implementation of
BarometricSensor.setSeaLevelPressure.  Overwrites the Sea-Level-Pressure
Reference and nothing else. -/
def BarometricState.setSeaLevelPressure {κ κe : Type} (st : BarometricState κ κe)
    (slp : Nat) : BarometricState κ κe :=
  { st with seaLevelPressure := slp }

/-- Modelled from the spec: the missing implementation of
BarometricSensor_withCb.registerNewSampleCb, a thin forward to the single
New-Sample registry. -/
def BarometricState.registerNewSampleCb {κ κe : Type} [DecidableEq κ]
    (st : BarometricState κ κe) (cb : κ) : BarometricState κ κe :=
  { st with newSampleCbs := CallbackRegistry.register st.newSampleCbs cb }

/-- Observable outcome of one barometric sampling call.  The destination
is an int32_t in both readPressure and readAltitude (per the header
declarations), and every New-Sample invocation carries the
(pressure, altitude) pair of the NewBarometricSampleCb signature. -/
structure BaroSampleOutcome (κ κe : Type) where
  ret : Bool
  destAfter : Option Int
  newSampleCalls : List (κ × Nat × Int)
  errorCalls : List κe
deriving DecidableEq

/-- Modelled from the spec: the missing implementation of
BarometricSensor_withCb.readPressure.  altitudeFrom is the external
altitude computation, reading the current Sea-Level-Pressure Reference.
The raw UQ22.10 pressure value is stored through the int32_t destination
pointer declared in the header, hence the toInt32 reinterpretation; the
NewBarometricSampleCb dispatch receives the unsigned uint32_t value
together with the altitude. -/
def BarometricState.readPressure {κ κe : Type} (altitudeFrom : Nat → Nat → Int)
    (st : BarometricState κ κe) (reading : Option Nat) (destBefore : Option Int) :
    BaroSampleOutcome κ κe :=
  match reading with
  | some v =>
    { ret := true
      destAfter := destBefore.map (fun _ => toInt32 v)
      newSampleCalls :=
        st.newSampleCbs.map (fun cb => (cb, v, altitudeFrom v st.seaLevelPressure))
      errorCalls := [] }
  | none =>
    { ret := false
      destAfter := destBefore
      newSampleCalls := []
      errorCalls := st.errorCbs }

/-- Modelled from the spec: the missing implementation of
BarometricSensor_withCb.readAltitude.  The altitude, corrected with the
current Sea-Level-Pressure Reference, is written to the int32_t
destination, and the same shared New-Sample registry is dispatched with
the (pressure, altitude) pair. -/
def BarometricState.readAltitude {κ κe : Type} (altitudeFrom : Nat → Nat → Int)
    (st : BarometricState κ κe) (reading : Option Nat) (destBefore : Option Int) :
    BaroSampleOutcome κ κe :=
  match reading with
  | some v =>
    { ret := true
      destAfter := destBefore.map (fun _ => altitudeFrom v st.seaLevelPressure)
      newSampleCalls :=
        st.newSampleCbs.map (fun cb => (cb, v, altitudeFrom v st.seaLevelPressure))
      errorCalls := [] }
  | none =>
    { ret := false
      destAfter := destBefore
      newSampleCalls := []
      errorCalls := st.errorCbs }

end CInterfaces

namespace CInterfaces

/-! ## Helper lemmas about the registry operations -/

theorem register_nodup {κ : Type} [DecidableEq κ] {list : List κ} (h : list.Nodup) (cb : κ) :
    (CallbackRegistry.register list cb).Nodup := by
  unfold CallbackRegistry.register
  split
  · exact h
  · next hmem => simpa [List.nodup_append] using ⟨h, hmem⟩

theorem register_toFinset {κ : Type} [DecidableEq κ] (list : List κ) (cb : κ) :
    (CallbackRegistry.register list cb).toFinset = insert cb list.toFinset := by
  unfold CallbackRegistry.register
  split
  · next hmem => rw [Finset.insert_eq_self.mpr (List.mem_toFinset.mpr hmem)]
  · ext a
    simp [or_comm]

theorem unregister_nodup {κ : Type} [DecidableEq κ] {list : List κ} (h : list.Nodup) (cb : κ) :
    (CallbackRegistry.unregister list cb).Nodup :=
  h.erase cb

theorem unregister_toFinset {κ : Type} [DecidableEq κ] {list : List κ} (h : list.Nodup)
    (cb : κ) : (CallbackRegistry.unregister list cb).toFinset = list.toFinset.erase cb := by
  ext a
  simp [CallbackRegistry.unregister, Finset.mem_erase, h.mem_erase_iff]

theorem mem_register_self {κ : Type} [DecidableEq κ] (list : List κ) (cb : κ) :
    cb ∈ CallbackRegistry.register list cb := by
  unfold CallbackRegistry.register
  split
  · assumption
  · simp

/-! ## Claim theorems -/

/-- Claim C1: for every sampling call on the synchronous-with-notification
facade in which the underlying reading is valid, a non-null destination
receives the new value, the New-Sample registry is dispatched with the new
value regardless of whether a destination was supplied, and the call
returns true. -/
theorem claim_C1_valid_sample {α κ κe : Type} (st : CbFacadeState κ κe) (v : α)
    (destBefore : Option α) :
    (∀ d0 : α, destBefore = some d0 →
      (sampleWithCb st (some v) destBefore).destAfter = some v) ∧
    (sampleWithCb st (some v) destBefore).newSampleCalls =
      CallbackRegistry.dispatchAll st.newSampleCbs v ∧
    (sampleWithCb st (some v) destBefore).ret = true := by
  refine ⟨?_, rfl, rfl⟩
  intro d0 h
  subst h
  rfl

/-- Witness for C1 at a concrete facade state, reading and destination. -/
theorem claim_C1_valid_sample_witness :
    (sampleWithCb (⟨[1, 2], [3]⟩ : CbFacadeState Nat Nat) (some 5) (some 7)).destAfter =
      some 5 ∧
    (sampleWithCb (⟨[1, 2], [3]⟩ : CbFacadeState Nat Nat) (some 5) (some 7)).ret = true :=
  ⟨(claim_C1_valid_sample ⟨[1, 2], [3]⟩ 5 (some 7)).1 7 rfl,
   (claim_C1_valid_sample ⟨[1, 2], [3]⟩ 5 (some 7)).2.2⟩

/-- Claim C2: for every sampling call on the synchronous-with-notification
facade in which the underlying reading is invalid, the destination is left
completely unmodified, the Error registry is dispatched exactly once per
registered handle with no payload, the New-Sample registry is not
dispatched, and the call returns false. -/
theorem claim_C2_invalid_sample {α κ κe : Type} [DecidableEq κe] (st : CbFacadeState κ κe)
    (destBefore : Option α) (hnd : st.errorCbs.Nodup) :
    (sampleWithCb st (none : Option α) destBefore).destAfter = destBefore ∧
    (sampleWithCb st (none : Option α) destBefore).newSampleCalls = [] ∧
    (sampleWithCb st (none : Option α) destBefore).ret = false ∧
    (∀ cb ∈ st.errorCbs,
      (sampleWithCb st (none : Option α) destBefore).errorCalls.count cb = 1) ∧
    (∀ cb : κe, cb ∉ st.errorCbs →
      (sampleWithCb st (none : Option α) destBefore).errorCalls.count cb = 0) := by
  refine ⟨rfl, rfl, rfl, ?_, ?_⟩
  · intro cb hmem
    exact List.count_eq_one_of_mem hnd hmem
  · intro cb hmem
    exact List.count_eq_zero_of_not_mem hmem

/-- Witness for C2 at a concrete facade state and sentinel destination. -/
theorem claim_C2_invalid_sample_witness :
    (sampleWithCb (⟨[1], [3]⟩ : CbFacadeState Nat Nat) (none : Option Nat)
      (some 57005)).destAfter = some 57005 ∧
    (sampleWithCb (⟨[1], [3]⟩ : CbFacadeState Nat Nat) (none : Option Nat)
      (some 57005)).errorCalls.count 3 = 1 :=
  ⟨(claim_C2_invalid_sample (⟨[1], [3]⟩ : CbFacadeState Nat Nat) (some 57005)
      (by decide)).1,
   (claim_C2_invalid_sample (⟨[1], [3]⟩ : CbFacadeState Nat Nat) (some 57005)
      (by decide)).2.2.2.1 3 (by decide)⟩

/-- Claim C4: dispatchAll invokes each callback registered at dispatch time
exactly once per event, none more than once and none skipped, regardless of
registration order, and every invocation carries the event payload. -/
theorem claim_C4_dispatch_exactly_once {κ α : Type} [DecidableEq κ] (list : List κ)
    (payload : α) (hnd : list.Nodup) :
    (∀ cb ∈ list,
      ((CallbackRegistry.dispatchAll list payload).map Prod.fst).count cb = 1) ∧
    (∀ cb : κ, cb ∉ list →
      ((CallbackRegistry.dispatchAll list payload).map Prod.fst).count cb = 0) ∧
    (∀ entry ∈ CallbackRegistry.dispatchAll list payload, entry.2 = payload) := by
  have hmap : (CallbackRegistry.dispatchAll list payload).map Prod.fst = list := by
    simp [CallbackRegistry.dispatchAll, Function.comp_def]
  refine ⟨?_, ?_, ?_⟩
  · intro cb hmem
    rw [hmap]
    exact List.count_eq_one_of_mem hnd hmem
  · intro cb hmem
    rw [hmap]
    exact List.count_eq_zero_of_not_mem hmem
  · intro entry hmem
    simp only [CallbackRegistry.dispatchAll, List.mem_map] at hmem
    obtain ⟨cb, _, rfl⟩ := hmem
    rfl

/-- Witness for C4 at a concrete registry and payload. -/
theorem claim_C4_dispatch_exactly_once_witness :
    ((CallbackRegistry.dispatchAll [2, 1, 3] (5 : Nat)).map Prod.fst).count 1 = 1 ∧
    ((CallbackRegistry.dispatchAll [2, 1, 3] (5 : Nat)).map Prod.fst).count 9 = 0 :=
  ⟨(claim_C4_dispatch_exactly_once [2, 1, 3] 5 (by decide)).1 1 (by decide),
   (claim_C4_dispatch_exactly_once [2, 1, 3] 5 (by decide)).2.1 9 (by decide)⟩

/-- Claim C6: a null destination is a valid call shape, not an error: the
call proceeds identically except that no destination is written, the sample
reaches the registered callbacks just the same, and the return value
reports validity exactly as for a non-null destination. -/
theorem claim_C6_null_destination {α κ κe : Type} (st : CbFacadeState κ κe)
    (reading : Option α) (d : α) :
    (sampleWithCb st reading none).ret = (sampleWithCb st reading (some d)).ret ∧
    (sampleWithCb st reading none).newSampleCalls =
      (sampleWithCb st reading (some d)).newSampleCalls ∧
    (sampleWithCb st reading none).errorCalls =
      (sampleWithCb st reading (some d)).errorCalls ∧
    ((sampleWithCb st reading none).ret = true ↔ reading.isSome = true) := by
  cases reading <;> simp [sampleWithCb]

end CInterfaces

namespace CInterfaces

theorem runOps_invariant {κ : Type} [DecidableEq κ] (ops : List (RegistryOp κ)) :
    ∀ list : List κ, list.Nodup →
      (ops.foldl RegistryOp.apply list).Nodup ∧
      (ops.foldl RegistryOp.apply list).toFinset =
        ops.foldl RegistryOp.applySet list.toFinset := by
  induction ops with
  | nil => exact fun list h => ⟨h, rfl⟩
  | cons op rest ih =>
    intro list h
    simp only [List.foldl_cons]
    cases op with
    | register cb =>
      obtain ⟨h1, h2⟩ := ih (CallbackRegistry.register list cb) (register_nodup h cb)
      refine ⟨h1, ?_⟩
      rw [show RegistryOp.apply list (RegistryOp.register cb)
            = CallbackRegistry.register list cb from rfl, h2,
          show RegistryOp.applySet list.toFinset (RegistryOp.register cb)
            = insert cb list.toFinset from rfl, register_toFinset]
    | unregister cb =>
      obtain ⟨h1, h2⟩ := ih (CallbackRegistry.unregister list cb) (unregister_nodup h cb)
      refine ⟨h1, ?_⟩
      rw [show RegistryOp.apply list (RegistryOp.unregister cb)
            = CallbackRegistry.unregister list cb from rfl, h2,
          show RegistryOp.applySet list.toFinset (RegistryOp.unregister cb)
            = list.toFinset.erase cb from rfl, unregister_toFinset h]

/-- Claim C3: for every finite sequence of register/unregister calls
applied to an initially empty registry, the registry contains no duplicate
handle and its member set equals the mathematical set obtained by folding
the sequence (register inserts if absent and is idempotent, unregister
erases if present and never fails). -/
theorem claim_C3_registry_set_semantics {κ : Type} [DecidableEq κ]
    (ops : List (RegistryOp κ)) :
    (runRegistryOps ops).Nodup ∧ (runRegistryOps ops).toFinset = specSetOfOps ops := by
  have h := runOps_invariant ops [] List.nodup_nil
  simpa [runRegistryOps, specSetOfOps] using h

/-- Claim C5: for the asynchronous facade over a bounded request queue,
readSample returns true exactly when the queue admits the request, every
call made at capacity returns false and leaves the queue unchanged, and
after a previously admitted request completes and frees capacity a
subsequent call is admitted again.  The boolean (with the queue state) is
the entire synchronous outcome: no sample value is delivered. -/
theorem claim_C5_async_admission (st : AsyncRequestQueue) :
    (st.readSample.1 = true ↔ st.pending < st.capacity) ∧
    (st.capacity ≤ st.pending → st.readSample.1 = false ∧ st.readSample.2 = st) ∧
    (st.pending = st.capacity → 0 < st.capacity →
      st.completeRequest.readSample.1 = true ∧
      st.completeRequest.readSample.2.pending = st.pending) := by
  refine ⟨?_, ?_, ?_⟩
  · unfold AsyncRequestQueue.readSample
    split
    · next hlt => simpa using hlt
    · next hge => simpa using hge
  · intro hfull
    unfold AsyncRequestQueue.readSample
    split
    · next hlt => omega
    · exact ⟨rfl, rfl⟩
  · intro hfull hpos
    unfold AsyncRequestQueue.readSample AsyncRequestQueue.completeRequest
    split
    · next hlt => simpa using by omega
    · next hge => simp at hge; omega

/-- Witness for C5 at a concrete full queue of capacity one. -/
theorem claim_C5_async_admission_witness :
    (AsyncRequestQueue.readSample ⟨1, 1⟩).1 = false ∧
    ((AsyncRequestQueue.completeRequest ⟨1, 1⟩).readSample).1 = true :=
  ⟨((claim_C5_async_admission ⟨1, 1⟩).2.1 (by decide)).1,
   ((claim_C5_async_admission ⟨1, 1⟩).2.2 rfl (by decide)).1⟩

/-- Claim C7: the Sea-Level-Pressure Reference defaults to the UQ22.10
encoding of the standard 1013.25 hPa until setSeaLevelPressure is first
called, every altitude computation reads the current reference,
setSeaLevelPressure overwrites only this reference (the registries are
untouched), it takes effect on the next altitude computation, and a sample
computed before the set still carries the old reference value. -/
theorem claim_C7_sea_level_pressure (κ κe : Type) (altitudeFrom : Nat → Nat → Int)
    (st : BarometricState κ κe) (slp v : Nat) (destBefore : Option Int) :
    (BarometricState.init κ κe).seaLevelPressure = standardSeaLevelPressure ∧
    standardSeaLevelPressure * 100 = 101325 * 1024 ∧
    (BarometricState.readAltitude altitudeFrom st (some v) destBefore).destAfter =
      destBefore.map (fun _ => altitudeFrom v st.seaLevelPressure) ∧
    (st.setSeaLevelPressure slp).seaLevelPressure = slp ∧
    (st.setSeaLevelPressure slp).newSampleCbs = st.newSampleCbs ∧
    (st.setSeaLevelPressure slp).errorCbs = st.errorCbs ∧
    (BarometricState.readAltitude altitudeFrom (st.setSeaLevelPressure slp) (some v)
        destBefore).newSampleCalls =
      st.newSampleCbs.map (fun cb => (cb, v, altitudeFrom v slp)) ∧
    (BarometricState.readAltitude altitudeFrom st (some v) destBefore).newSampleCalls =
      st.newSampleCbs.map (fun cb => (cb, v, altitudeFrom v st.seaLevelPressure)) :=
  ⟨rfl, rfl, rfl, rfl, rfl, rfl, rfl, rfl⟩

/-- Claim C8: registering a handle that is not already a member on a
registry whose fixed-capacity backing store is full fails fatally: the
outcome is the fatal assert, never a recoverable ok result returned to the
caller. -/
theorem claim_C8_capacity_fatal {κ : Type} [DecidableEq κ] (capacity : Nat)
    (list : List κ) (cb : κ) (habs : cb ∉ list) (hfull : capacity ≤ list.length) :
    CallbackRegistry.registerBounded capacity list cb = RegisterOutcome.fatalAssert ∧
    ∀ result : List κ,
      CallbackRegistry.registerBounded capacity list cb ≠ RegisterOutcome.ok result := by
  have h : CallbackRegistry.registerBounded capacity list cb
      = RegisterOutcome.fatalAssert := by
    unfold CallbackRegistry.registerBounded
    rw [if_neg habs, if_neg (by omega)]
  exact ⟨h, fun result hok => by rw [h] at hok; exact RegisterOutcome.noConfusion hok⟩

/-- Witness for C8 at a concrete full registry of capacity one. -/
theorem claim_C8_capacity_fatal_witness :
    CallbackRegistry.registerBounded 1 [1] (2 : Nat) = RegisterOutcome.fatalAssert :=
  (claim_C8_capacity_fatal 1 [1] 2 (by decide) (by decide)).1

/-- Claim C9: the barometric callback variant has a single shared
New-Sample registry for both measurements: on a valid sample readPressure
and readAltitude dispatch identical invocation lists, the set of notified
handles is exactly the one registry for either operation, and a handle
registered through registerNewSampleCb receives the (pressure, altitude)
pair from both operations — pressure and altitude updates cannot be
subscribed to separately. -/
theorem claim_C9_shared_registry {κ κe : Type} [DecidableEq κ]
    (altitudeFrom : Nat → Nat → Int) (st : BarometricState κ κe) (cb : κ) (v : Nat)
    (d1 d2 : Option Int) :
    (BarometricState.readPressure altitudeFrom st (some v) d1).newSampleCalls =
      (BarometricState.readAltitude altitudeFrom st (some v) d2).newSampleCalls ∧
    ((BarometricState.readPressure altitudeFrom st (some v) d1).newSampleCalls.map
        Prod.fst = st.newSampleCbs) ∧
    ((BarometricState.readAltitude altitudeFrom st (some v) d2).newSampleCalls.map
        Prod.fst = st.newSampleCbs) ∧
    cb ∈ (st.registerNewSampleCb cb).newSampleCbs ∧
    (cb, v, altitudeFrom v st.seaLevelPressure) ∈
      (BarometricState.readPressure altitudeFrom (st.registerNewSampleCb cb) (some v)
        d1).newSampleCalls ∧
    (cb, v, altitudeFrom v st.seaLevelPressure) ∈
      (BarometricState.readAltitude altitudeFrom (st.registerNewSampleCb cb) (some v)
        d2).newSampleCalls := by
  have hmem : cb ∈ (st.registerNewSampleCb cb).newSampleCbs :=
    mem_register_self st.newSampleCbs cb
  refine ⟨rfl, ?_, ?_, hmem, ?_, ?_⟩
  · simp [BarometricState.readPressure, Function.comp_def]
  · simp [BarometricState.readAltitude, Function.comp_def]
  · exact List.mem_map.mpr ⟨cb, hmem, rfl⟩
  · exact List.mem_map.mpr ⟨cb, hmem, rfl⟩

/-- Claim C10: on a valid pressure reading the callback variant stores the
raw UQ22.10 value through its int32_t destination while the callbacks
receive the unsigned uint32_t value; the two agree exactly for raw values
below 2^31, and for every raw value at or above 2^31 the destination holds
the negative two's-complement reinterpretation of the value the callbacks
receive. -/
theorem claim_C10_int32_reinterpretation {κ κe : Type} (altitudeFrom : Nat → Nat → Int)
    (st : BarometricState κ κe) (v : Nat) (d : Int) (hv : v < 2 ^ 32) :
    (BarometricState.readPressure altitudeFrom st (some v) (some d)).destAfter =
      some (toInt32 v) ∧
    ((BarometricState.readPressure altitudeFrom st (some v) (some d)).newSampleCalls.map
        (fun entry => entry.2.1) = st.newSampleCbs.map (fun _ => v)) ∧
    (v < 2 ^ 31 → toInt32 v = (v : Int)) ∧
    (2 ^ 31 ≤ v →
      toInt32 v = (v : Int) - 2 ^ 32 ∧ toInt32 v < 0 ∧ toInt32 v ≠ (v : Int)) := by
  refine ⟨rfl, ?_, ?_, ?_⟩
  · simp [BarometricState.readPressure, Function.comp_def]
  · intro hlt
    unfold toInt32
    rw [if_pos hlt]
  · intro hge
    have hcond : ¬ v < 2 ^ 31 := by omega
    have heq : toInt32 v = (v : Int) - 2 ^ 32 := by unfold toInt32; rw [if_neg hcond]
    refine ⟨heq, ?_, ?_⟩
    · rw [heq]
      have : (v : Int) < 2 ^ 32 := by exact_mod_cast hv
      omega
    · rw [heq]
      have : (0 : Int) ≤ (v : Int) := Int.natCast_nonneg v
      omega

/-- Witness for C10 at the raw value 2^31 with a concrete facade state and
altitude computation. -/
theorem claim_C10_int32_reinterpretation_witness :
    (BarometricState.readPressure (fun p slp => (slp : Int) - (p : Int))
      (⟨standardSeaLevelPressure, [1], [2]⟩ : BarometricState Nat Nat)
      (some 2147483648) (some 0)).destAfter = some (toInt32 2147483648) ∧
    toInt32 2147483648 < 0 :=
  ⟨(claim_C10_int32_reinterpretation (fun p slp => (slp : Int) - (p : Int))
      (⟨standardSeaLevelPressure, [1], [2]⟩ : BarometricState Nat Nat)
      2147483648 0 (by norm_num)).1,
   ((claim_C10_int32_reinterpretation (fun p slp => (slp : Int) - (p : Int))
      (⟨standardSeaLevelPressure, [1], [2]⟩ : BarometricState Nat Nat)
      2147483648 0 (by norm_num)).2.2.2 (by norm_num)).2.1⟩

end CInterfaces
